import Mathlib

/-!
Shallow embedding of the data-loading pipeline of `src/main.py`
(dp-scheduling-wsetup): four loaders (demand, capacity, transition times,
scheduled downtime) that validate a file path, parse the file into rows and
fold the rows into a nested lookup table.

Python dictionaries are modelled as association lists preserving insertion
order; Python sets as `Finset`; exceptions as `Except LoadError`.
-/

set_option maxHeartbeats 1000000

namespace DPSched

/-- A raw cell value as parsed from a tabular file (string or integer column). -/
inductive Cell where
  | str : String → Cell
  | int : Int → Cell
deriving DecidableEq

/-- One parsed record: an ordered mapping from column name to cell value. -/
abbrev Row := List (String × Cell)

/-- Association-list lookup: the value stored under a key, if any.
Mirrors Python dict indexing `d[k]` (minus the raised `KeyError`). -/
def alookup {κ ν : Type} [DecidableEq κ] : List (κ × ν) → κ → Option ν
  | [], _ => none
  | (k, v) :: rest, key => if k = key then some v else alookup rest key

/-- Python dict assignment `d[k] = v`: replace the value in place when the key
is present, append the new binding at the end otherwise (this is how CPython
dicts keep insertion order). -/
def listUpsert {κ ν : Type} [DecidableEq κ] : List (κ × ν) → κ → ν → List (κ × ν)
  | [], k, v => [(k, v)]
  | (k', v') :: rest, k, v =>
      if k' = k then (k', v) :: rest else (k', v') :: listUpsert rest k v

/-- Python `d.setdefault(k, v)` restricted to its effect on the dict: leave the
mapping unchanged when the key is present, append `(k, v)` otherwise. -/
def listSetdefault {κ ν : Type} [DecidableEq κ] (d : List (κ × ν)) (k : κ) (v : ν) :
    List (κ × ν) :=
  if (alookup d k).isSome then d else d ++ [(k, v)]

/-- The failure modes of loader construction in `main.py`:
`validation` is the ValueError raised by `FileInput.validate_file_path`;
`format` is the ValueError raised by the internal extension re-check of the
transition-time and downtime loaders; `notFound` is the FileNotFoundError
pandas raises on a missing file; `parse` is any other pandas read failure;
`keyError` is the KeyError raised when a row lacks a required column. -/
inductive LoadError where
  | validation : String → LoadError
  | format : String → LoadError
  | notFound : String → LoadError
  | parse : String → LoadError
  | keyError : String → LoadError
deriving DecidableEq

/-- A filesystem path, carrying its `pathlib.Path.suffix` (the final extension,
with the leading dot, empty when there is none). -/
structure FPath where
  name : String
  suffix : String
deriving DecidableEq

/-- The actual content format of a file on disk, deciding which pandas reader
can parse it. -/
inductive FileFormat where
  | csv : FileFormat
  | excel : FileFormat
deriving DecidableEq

/-- A file on disk: its content format and the rows a successful parse yields. -/
structure FileData where
  format : FileFormat
  rows : List Row
deriving DecidableEq

/-- The filesystem visible to the loaders: the existing files and their data. -/
structure FileSystem where
  files : List (FPath × FileData)
deriving DecidableEq

/-- `Path.exists()` over the modelled filesystem. -/
def pathExists (fs : FileSystem) (p : FPath) : Bool :=
  (alookup fs.files p).isSome

/-- Python `str.lower()`, written by structural recursion over the character
list so that concrete paths evaluate inside the kernel. -/
def strLower (s : String) : String := ⟨s.data.map Char.toLower⟩

/-- The accepted extension set `{'.csv', '.xlsx'}` of `validate_file_path`. -/
def acceptedExtensions : List String := [".csv", ".xlsx"]

/-- The pydantic model `FileInput`: it holds a `file_path` field.  Its
`validate_file_path` classmethod carries no validator decorator, so pydantic
never invokes it: constructing `FileInput` stores the path unchanged. -/
structure FileInput where
  file_path : FPath
deriving DecidableEq

/-- `FileInput.validate_file_path` as written in the source: raise when the
path does not exist, raise when the lower-cased suffix is not accepted,
otherwise return the path.  (Defined in the source but never wired into
pydantic's automatic validation.) -/
def validate_file_path (fs : FileSystem) (value : FPath) : Except LoadError FPath :=
  if pathExists fs value = false then
    .error (.validation "File does not exist.")
  else if strLower value.suffix ∉ acceptedExtensions then
    .error (.validation "Unsupported file format. Please provide a CSV or Excel file.")
  else
    .ok value

/-- `pd.read_csv`: FileNotFoundError on a missing path; parses the file's rows
when the content is delimited text, fails otherwise. -/
def read_csv (fs : FileSystem) (p : FPath) : Except LoadError (List Row) :=
  match alookup fs.files p with
  | none => .error (.notFound p.name)
  | some fd => if fd.format = .csv then .ok fd.rows else .error (.parse p.name)

/-- `pd.read_excel`: FileNotFoundError on a missing path; parses the file's
rows when the content is a spreadsheet, fails otherwise. -/
def read_excel (fs : FileSystem) (p : FPath) : Except LoadError (List Row) :=
  match alookup fs.files p with
  | none => .error (.notFound p.name)
  | some fd => if fd.format = .excel then .ok fd.rows else .error (.parse p.name)

/-- Run the selected pandas reader. -/
def runRead (fs : FileSystem) (p : FPath) : FileFormat → Except LoadError (List Row)
  | .csv => read_csv fs p
  | .excel => read_excel fs p

/-- `row['c']`: the cell stored under column `c`, or a KeyError. -/
def rowGet (r : Row) (c : String) : Except LoadError Cell :=
  match alookup r c with
  | some v => .ok v
  | none => .error (.keyError c)

/-- The row loop of each loader: fold the rows in file order, aborting on the
first raised exception (no partial table survives an error). -/
def foldE {σ : Type} (f : σ → Row → Except LoadError σ) :
    σ → List Row → Except LoadError σ
  | acc, [] => .ok acc
  | acc, r :: rest =>
      match f acc r with
      | .ok acc' => foldE f acc' rest
      | .error e => .error e

/-- `demand_data`: product id → (week id → demand). -/
abbrev DemandTable := List (Cell × List (Cell × Cell))

/-- `capacity_data`: machine id → (product id → weekly capacity). -/
abbrev CapacityTable := List (Cell × List (Cell × Cell))

/-- `transtime_data`: machine id → ((from, to) pair → transition days). -/
abbrev TranstimeTable := List (Cell × List ((Cell × Cell) × Cell))

/-- `downtime_data`: week id → set of machines down that week. -/
abbrev DowntimeTable := List (Cell × Finset Cell)

/-- One iteration of `DemandLoader.load_demand_data`'s row loop:
`demand_data.setdefault(product_id, {})[week_id] = demand`. -/
def demandStep (acc : DemandTable) (r : Row) : Except LoadError DemandTable :=
  match rowGet r "product_id" with
  | .error e => .error e
  | .ok product_id =>
    match rowGet r "week_id" with
    | .error e => .error e
    | .ok week_id =>
      match rowGet r "demand" with
      | .error e => .error e
      | .ok demand =>
        .ok (listUpsert acc product_id
              (listUpsert ((alookup acc product_id).getD []) week_id demand))

/-- One iteration of `CapacityLoader.load_capacity_data`'s row loop:
`capacity_data.setdefault(machine_id, {})[product_id] = week_cap`. -/
def capacityStep (acc : CapacityTable) (r : Row) : Except LoadError CapacityTable :=
  match rowGet r "machine_id" with
  | .error e => .error e
  | .ok machine_id =>
    match rowGet r "product_id" with
    | .error e => .error e
    | .ok product_id =>
      match rowGet r "week_cap" with
      | .error e => .error e
      | .ok week_cap =>
        .ok (listUpsert acc machine_id
              (listUpsert ((alookup acc machine_id).getD []) product_id week_cap))

/-- One iteration of `TranstimeLoader.load_transition_times`'s row loop:
insert `{}` for an unseen machine, then
`transition_times[machine_id].setdefault((from, to), trans_time_days)`. -/
def transtimeStep (acc : TranstimeTable) (r : Row) : Except LoadError TranstimeTable :=
  match rowGet r "machine_Id" with
  | .error e => .error e
  | .ok machine_id =>
    match rowGet r "from" with
    | .error e => .error e
    | .ok from_product =>
      match rowGet r "to" with
      | .error e => .error e
      | .ok to_product =>
        match rowGet r "trans_time_days" with
        | .error e => .error e
        | .ok trans_time_days =>
          .ok (listUpsert acc machine_id
                (listSetdefault ((alookup acc machine_id).getD [])
                  (from_product, to_product) trans_time_days))

/-- One iteration of `DowntimeLoader.load_downtime_data`'s row loop:
`downtime_data.setdefault(week_id, set()).add(machine_id)`. -/
def downtimeStep (acc : DowntimeTable) (r : Row) : Except LoadError DowntimeTable :=
  match rowGet r "machine_Id" with
  | .error e => .error e
  | .ok machine_id =>
    match rowGet r "week_id" with
    | .error e => .error e
    | .ok week_id =>
      .ok (listUpsert acc week_id (insert machine_id ((alookup acc week_id).getD ∅)))

/-- The row-reduction phase of `DemandLoader.load_demand_data`. -/
def load_demand_rows (rows : List Row) : Except LoadError DemandTable :=
  foldE demandStep [] rows

/-- The row-reduction phase of `CapacityLoader.load_capacity_data`. -/
def load_capacity_rows (rows : List Row) : Except LoadError CapacityTable :=
  foldE capacityStep [] rows

/-- The row-reduction phase of `TranstimeLoader.load_transition_times`. -/
def load_transtime_rows (rows : List Row) : Except LoadError TranstimeTable :=
  foldE transtimeStep [] rows

/-- The row-reduction phase of `DowntimeLoader.load_downtime_data`. -/
def load_downtime_rows (rows : List Row) : Except LoadError DowntimeTable :=
  foldE downtimeStep [] rows

/-- Reader dispatch in `load_demand_data`: `read_csv` when the lower-cased
suffix is `.csv`, otherwise unconditionally `read_excel` (no rejection branch). -/
def demandDispatch (p : FPath) : FileFormat :=
  if strLower p.suffix = ".csv" then .csv else .excel

/-- Reader dispatch in `load_capacity_data`: same two-way dispatch as the
demand loader, with no rejection branch. -/
def capacityDispatch (p : FPath) : FileFormat :=
  if strLower p.suffix = ".csv" then .csv else .excel

/-- Reader dispatch in `load_transition_times`: `.csv` → read_csv,
`.xlsx` → read_excel, anything else raises the loader's own ValueError. -/
def transtimeDispatch (p : FPath) : Except LoadError FileFormat :=
  if strLower p.suffix = ".csv" then .ok .csv
  else if strLower p.suffix = ".xlsx" then .ok .excel
  else .error (.format "Unsupported file format. Please provide a CSV or Excel file.")

/-- Reader dispatch in `load_downtime_data`: same three-way dispatch as the
transition-time loader, raising its own ValueError on other extensions. -/
def downtimeDispatch (p : FPath) : Except LoadError FileFormat :=
  if strLower p.suffix = ".csv" then .ok .csv
  else if strLower p.suffix = ".xlsx" then .ok .excel
  else .error (.format "Unsupported file format. Please provide a CSV or Excel file.")

/-- `DemandLoader.load_demand_data`: dispatch on extension, read, fold rows. -/
def load_demand_data (fs : FileSystem) (p : FPath) : Except LoadError DemandTable :=
  match runRead fs p (demandDispatch p) with
  | .error e => .error e
  | .ok rows => load_demand_rows rows

/-- `CapacityLoader.load_capacity_data`: dispatch on extension, read, fold rows. -/
def load_capacity_data (fs : FileSystem) (p : FPath) : Except LoadError CapacityTable :=
  match runRead fs p (capacityDispatch p) with
  | .error e => .error e
  | .ok rows => load_capacity_rows rows

/-- `TranstimeLoader.load_transition_times`: extension check with its own
ValueError, then read and fold rows. -/
def load_transition_times (fs : FileSystem) (p : FPath) : Except LoadError TranstimeTable :=
  match transtimeDispatch p with
  | .error e => .error e
  | .ok fmt =>
    match runRead fs p fmt with
    | .error e => .error e
    | .ok rows => load_transtime_rows rows

/-- `DowntimeLoader.load_downtime_data`: extension check with its own
ValueError, then read and fold rows. -/
def load_downtime_data (fs : FileSystem) (p : FPath) : Except LoadError DowntimeTable :=
  match downtimeDispatch p with
  | .error e => .error e
  | .ok fmt =>
    match runRead fs p fmt with
    | .error e => .error e
    | .ok rows => load_downtime_rows rows

/-- `DemandLoader.__init__`: build `FileInput(file_path=p)` (which performs no
validation), take its `file_path`, and load the table from it. -/
def DemandLoader.construct (fs : FileSystem) (p : FPath) : Except LoadError DemandTable :=
  load_demand_data fs (FileInput.mk p).file_path

/-- `CapacityLoader.__init__`, same shape as the demand loader. -/
def CapacityLoader.construct (fs : FileSystem) (p : FPath) : Except LoadError CapacityTable :=
  load_capacity_data fs (FileInput.mk p).file_path

/-- `TranstimeLoader.__init__`, same shape. -/
def TranstimeLoader.construct (fs : FileSystem) (p : FPath) : Except LoadError TranstimeTable :=
  load_transition_times fs (FileInput.mk p).file_path

/-- `DowntimeLoader.__init__`, same shape. -/
def DowntimeLoader.construct (fs : FileSystem) (p : FPath) : Except LoadError DowntimeTable :=
  load_downtime_data fs (FileInput.mk p).file_path

/-- Nested lookup `T[k₁][k₂]` on a two-level table, `none` when either level
misses. -/
def tableLookup2 {κ₁ κ₂ : Type} [DecidableEq κ₁] [DecidableEq κ₂]
    (T : List (κ₁ × List (κ₂ × Cell))) (k₁ : κ₁) (k₂ : κ₂) : Option Cell :=
  (alookup T k₁).bind (fun inner => alookup inner k₂)

/-- `downtime_data[w]` read with an empty-set default. -/
def downtimeLookup (T : DowntimeTable) (w : Cell) : Finset Cell :=
  (alookup T w).getD ∅

/-- Whether a loader outcome is the ValueError of `validate_file_path`. -/
def isValidationErr {α : Type} : Except LoadError α → Bool
  | .error (.validation _) => true
  | _ => false

/-- Whether a loader outcome is a loader-internal extension-check ValueError. -/
def isFormatErr {α : Type} : Except LoadError α → Bool
  | .error (.format _) => true
  | _ => false

/-- Spec-side predicate: the row's (product_id, week_id) cells equal (p, w). -/
def specDemandKeyMatch (p w : Cell) (r : Row) : Bool :=
  decide (alookup r "product_id" = some p ∧ alookup r "week_id" = some w)

/-- Spec-side value, from the spec's words: the `demand` cell of the last row
in file order whose (product_id, week_id) pair is (p, w). -/
def specLastDemand (rows : List Row) (p w : Cell) : Option Cell :=
  (rows.reverse.find? (specDemandKeyMatch p w)).bind (fun r => alookup r "demand")

/-- Spec-side predicate: the row's (machine_Id, from, to) cells equal (m, f, t). -/
def specTransKeyMatch (m f t : Cell) (r : Row) : Bool :=
  decide (alookup r "machine_Id" = some m ∧ alookup r "from" = some f ∧
    alookup r "to" = some t)

/-- Spec-side value, from the spec's words: the `trans_time_days` cell of the
first row in file order whose (machine_Id, from, to) triple is (m, f, t). -/
def specFirstTrans (rows : List Row) (m f t : Cell) : Option Cell :=
  (rows.find? (specTransKeyMatch m f t)).bind (fun r => alookup r "trans_time_days")

/-- Spec-side value, from the spec's words: the set of distinct machine_Id
cells among the rows whose week_id is w. -/
def specDowntimeMachines (rows : List Row) (w : Cell) : Finset Cell :=
  (rows.filterMap (fun r =>
    if alookup r "week_id" = some w then alookup r "machine_Id" else none)).toFinset

/-- Decidable equality of loader outcomes, for evaluating concrete runs. -/
instance {ε α : Type} [DecidableEq ε] [DecidableEq α] : DecidableEq (Except ε α) :=
  fun a b =>
  match a, b with
  | .error e1, .error e2 =>
    if h : e1 = e2 then .isTrue (by rw [h])
    else .isFalse (fun hc => h (by injection hc))
  | .ok x, .ok y =>
    if h : x = y then .isTrue (by rw [h])
    else .isFalse (fun hc => h (by injection hc))
  | .error _, .ok _ => .isFalse (fun hc => Except.noConfusion hc)
  | .ok _, .error _ => .isFalse (fun hc => Except.noConfusion hc)

/-- Every outer key of a two-level dict maps to a non-empty inner dict. -/
def dictValuesNonempty {κ α : Type} [DecidableEq κ] (T : List (κ × List α)) : Prop :=
  ∀ k inner, alookup T k = some inner → inner ≠ []

/-- Every week of a downtime table maps to a non-empty machine set. -/
def setValuesNonempty (T : DowntimeTable) : Prop :=
  ∀ k s, alookup T k = some s → s ≠ ∅

/-! ### Concrete fixtures -/

def pDemandX : FPath := ⟨"input/demand.xlsx", ".xlsx"⟩

def pCapX : FPath := ⟨"input/capacity.xlsx", ".xlsx"⟩

def pTransX : FPath := ⟨"input/transition_times.xlsx", ".xlsx"⟩

def pDownX : FPath := ⟨"input/scheduled_downtime.xlsx", ".xlsx"⟩

def pTxt : FPath := ⟨"input/demand.txt", ".txt"⟩

def emptyFS : FileSystem := ⟨[]⟩

def sampleDemandRows : List Row :=
  [[("product_id", .str "product_1"), ("week_id", .str "week_1"), ("demand", .int 10)],
   [("product_id", .str "product_1"), ("week_id", .str "week_2"), ("demand", .int 20)],
   [("product_id", .str "product_1"), ("week_id", .str "week_1"), ("demand", .int 99)]]

def sampleDemandFS : FileSystem := ⟨[(pDemandX, ⟨.excel, sampleDemandRows⟩)]⟩

def sampleDemandTable : DemandTable :=
  [(.str "product_1", [(.str "week_1", .int 99), (.str "week_2", .int 20)])]

def sampleCapRows : List Row :=
  [[("machine_id", .str "machine_1"), ("product_id", .str "product_1"),
    ("week_cap", .int 100)],
   [("machine_id", .str "machine_1"), ("product_id", .str "product_2"),
    ("week_cap", .int 50)]]

def sampleCapFS : FileSystem := ⟨[(pCapX, ⟨.excel, sampleCapRows⟩)]⟩

def sampleCapTable : CapacityTable :=
  [(.str "machine_1", [(.str "product_1", .int 100), (.str "product_2", .int 50)])]

def sampleTransRows : List Row :=
  [[("machine_Id", .str "machine_1"), ("from", .str "product_1"),
    ("to", .str "product_2"), ("trans_time_days", .int 5)],
   [("machine_Id", .str "machine_1"), ("from", .str "product_1"),
    ("to", .str "product_2"), ("trans_time_days", .int 7)]]

def sampleTransFS : FileSystem := ⟨[(pTransX, ⟨.excel, sampleTransRows⟩)]⟩

def sampleTransTable : TranstimeTable :=
  [(.str "machine_1", [((.str "product_1", .str "product_2"), .int 5)])]

def sampleDownRows : List Row :=
  [[("machine_Id", .str "machine_1"), ("week_id", .str "week_1")],
   [("machine_Id", .str "machine_2"), ("week_id", .str "week_1")],
   [("machine_Id", .str "machine_1"), ("week_id", .str "week_2")],
   [("machine_Id", .str "machine_1"), ("week_id", .str "week_1")]]

def sampleDownFS : FileSystem := ⟨[(pDownX, ⟨.excel, sampleDownRows⟩)]⟩

def sampleDownTable : DowntimeTable :=
  [(.str "week_1", {.str "machine_1", .str "machine_2"}),
   (.str "week_2", {.str "machine_1"})]

def txtFS : FileSystem := ⟨[(pTxt, ⟨.csv, sampleDemandRows⟩)]⟩

def rowNoProduct : Row := [("week_id", .str "week_1"), ("demand", .int 10)]

/-! ### Association-list lemmas -/

theorem alookup_listUpsert {κ ν : Type} [DecidableEq κ] (d : List (κ × ν)) (k : κ) (v : ν)
    (k' : κ) : alookup (listUpsert d k v) k' = if k = k' then some v else alookup d k' := by
  induction d with
  | nil => simp [listUpsert, alookup]
  | cons hd tl ih =>
    obtain ⟨k₀, v₀⟩ := hd
    by_cases h : k₀ = k
    · subst h
      by_cases h2 : k₀ = k' <;> simp [listUpsert, alookup, h2]
    · by_cases h2 : k₀ = k'
      · subst h2
        simp [listUpsert, alookup, h]
        rw [if_neg (fun h3 => h h3.symm)]
      · simp [listUpsert, alookup, h, h2, ih]

theorem alookup_append {κ ν : Type} [DecidableEq κ] (d e : List (κ × ν)) (k : κ) :
    alookup (d ++ e) k = (alookup d k).or (alookup e k) := by
  induction d with
  | nil => simp [alookup]
  | cons hd tl ih =>
    obtain ⟨k₀, v₀⟩ := hd
    by_cases h : k₀ = k <;> simp [alookup, h, ih]

theorem alookup_listSetdefault {κ ν : Type} [DecidableEq κ] (d : List (κ × ν)) (k : κ) (v : ν)
    (k' : κ) :
    alookup (listSetdefault d k v) k' =
      if k = k' then some ((alookup d k).getD v) else alookup d k' := by
  by_cases hk : (alookup d k).isSome
  · obtain ⟨x, hx⟩ := Option.isSome_iff_exists.mp hk
    by_cases h : k = k'
    · subst h
      simp [listSetdefault, hk, hx]
    · simp [listSetdefault, hk, h]
  · have hx : alookup d k = none := Option.not_isSome_iff_eq_none.mp hk
    by_cases h : k = k'
    · subst h
      simp [listSetdefault, hx, alookup_append, alookup]
    · simp [listSetdefault, hx, alookup_append, alookup, h]

theorem listUpsert_ne_nil {κ ν : Type} [DecidableEq κ] (d : List (κ × ν)) (k : κ) (v : ν) :
    listUpsert d k v ≠ [] := by
  cases d with
  | nil => simp [listUpsert]
  | cons hd tl =>
    obtain ⟨k₀, v₀⟩ := hd
    by_cases h : k₀ = k <;> simp [listUpsert, h]

theorem listSetdefault_ne_nil {κ ν : Type} [DecidableEq κ] (d : List (κ × ν)) (k : κ) (v : ν) :
    listSetdefault d k v ≠ [] := by
  unfold listSetdefault
  by_cases h : (alookup d k).isSome
  · simp only [if_pos h]
    intro hnil
    rw [hnil] at h
    simp [alookup] at h
  · simp only [if_neg h]
    simp

/-! ### Row-access lemmas -/

theorem rowGet_ok {r : Row} {c : String} {v : Cell} :
    rowGet r c = .ok v ↔ alookup r c = some v := by
  unfold rowGet
  cases h : alookup r c <;> simp

theorem rowGet_err {r : Row} {c : String} {e : LoadError} :
    rowGet r c = .error e → e = .keyError c := by
  unfold rowGet
  cases h : alookup r c <;> intro h2 <;> simp at h2
  exact h2.symm

/-! ### Step inversion lemmas -/

theorem demandStep_ok {acc acc' : DemandTable} {r : Row}
    (h : demandStep acc r = .ok acc') :
    ∃ p₀ w₀ d₀, alookup r "product_id" = some p₀ ∧ alookup r "week_id" = some w₀ ∧
      alookup r "demand" = some d₀ ∧
      acc' = listUpsert acc p₀ (listUpsert ((alookup acc p₀).getD []) w₀ d₀) := by
  cases h1 : alookup r "product_id" with
  | none => simp [demandStep, rowGet, h1] at h
  | some p₀ =>
    cases h2 : alookup r "week_id" with
    | none => simp [demandStep, rowGet, h1, h2] at h
    | some w₀ =>
      cases h3 : alookup r "demand" with
      | none => simp [demandStep, rowGet, h1, h2, h3] at h
      | some d₀ =>
        simp [demandStep, rowGet, h1, h2, h3] at h
        exact ⟨p₀, w₀, d₀, rfl, rfl, rfl, h.symm⟩

theorem capacityStep_ok {acc acc' : CapacityTable} {r : Row}
    (h : capacityStep acc r = .ok acc') :
    ∃ m₀ p₀ c₀, alookup r "machine_id" = some m₀ ∧ alookup r "product_id" = some p₀ ∧
      alookup r "week_cap" = some c₀ ∧
      acc' = listUpsert acc m₀ (listUpsert ((alookup acc m₀).getD []) p₀ c₀) := by
  cases h1 : alookup r "machine_id" with
  | none => simp [capacityStep, rowGet, h1] at h
  | some m₀ =>
    cases h2 : alookup r "product_id" with
    | none => simp [capacityStep, rowGet, h1, h2] at h
    | some p₀ =>
      cases h3 : alookup r "week_cap" with
      | none => simp [capacityStep, rowGet, h1, h2, h3] at h
      | some c₀ =>
        simp [capacityStep, rowGet, h1, h2, h3] at h
        exact ⟨m₀, p₀, c₀, rfl, rfl, rfl, h.symm⟩

theorem transtimeStep_ok {acc acc' : TranstimeTable} {r : Row}
    (h : transtimeStep acc r = .ok acc') :
    ∃ m₀ f₀ t₀ d₀, alookup r "machine_Id" = some m₀ ∧ alookup r "from" = some f₀ ∧
      alookup r "to" = some t₀ ∧ alookup r "trans_time_days" = some d₀ ∧
      acc' = listUpsert acc m₀
        (listSetdefault ((alookup acc m₀).getD []) (f₀, t₀) d₀) := by
  cases h1 : alookup r "machine_Id" with
  | none => simp [transtimeStep, rowGet, h1] at h
  | some m₀ =>
    cases h2 : alookup r "from" with
    | none => simp [transtimeStep, rowGet, h1, h2] at h
    | some f₀ =>
      cases h3 : alookup r "to" with
      | none => simp [transtimeStep, rowGet, h1, h2, h3] at h
      | some t₀ =>
        cases h4 : alookup r "trans_time_days" with
        | none => simp [transtimeStep, rowGet, h1, h2, h3, h4] at h
        | some d₀ =>
          simp [transtimeStep, rowGet, h1, h2, h3, h4] at h
          exact ⟨m₀, f₀, t₀, d₀, rfl, rfl, rfl, rfl, h.symm⟩

theorem downtimeStep_ok {acc acc' : DowntimeTable} {r : Row}
    (h : downtimeStep acc r = .ok acc') :
    ∃ m₀ w₀, alookup r "machine_Id" = some m₀ ∧ alookup r "week_id" = some w₀ ∧
      acc' = listUpsert acc w₀ (insert m₀ ((alookup acc w₀).getD ∅)) := by
  cases h1 : alookup r "machine_Id" with
  | none => simp [downtimeStep, rowGet, h1] at h
  | some m₀ =>
    cases h2 : alookup r "week_id" with
    | none => simp [downtimeStep, rowGet, h1, h2] at h
    | some w₀ =>
      simp [downtimeStep, rowGet, h1, h2] at h
      exact ⟨m₀, w₀, rfl, rfl, h.symm⟩

/-! ### Single-update lookup lemmas -/

theorem demandInsert_lookup (acc : DemandTable) (p₀ w₀ d₀ : Cell) (p w : Cell) :
    tableLookup2 (listUpsert acc p₀ (listUpsert ((alookup acc p₀).getD []) w₀ d₀)) p w =
      if p₀ = p ∧ w₀ = w then some d₀ else tableLookup2 acc p w := by
  unfold tableLookup2
  rw [alookup_listUpsert]
  by_cases hp : p₀ = p
  · subst hp
    rw [if_pos rfl]
    simp only [Option.some_bind]
    rw [alookup_listUpsert]
    by_cases hw : w₀ = w
    · simp [hw]
    · simp only [if_neg hw]
      cases halook : alookup acc p₀ <;> simp [alookup, hw]
  · simp [hp]

theorem transInsert_lookup (acc : TranstimeTable) (m₀ : Cell) (k₀ : Cell × Cell)
    (d₀ : Cell) (m : Cell) (k : Cell × Cell) :
    tableLookup2 (listUpsert acc m₀
        (listSetdefault ((alookup acc m₀).getD []) k₀ d₀)) m k =
      if m₀ = m ∧ k₀ = k then some ((tableLookup2 acc m₀ k₀).getD d₀)
      else tableLookup2 acc m k := by
  unfold tableLookup2
  rw [alookup_listUpsert]
  by_cases hm : m₀ = m
  · subst hm
    rw [if_pos rfl]
    simp only [Option.some_bind]
    rw [alookup_listSetdefault]
    by_cases hk : k₀ = k
    · subst hk
      simp only [if_pos rfl, true_and, if_true]
      cases halook : alookup acc m₀ <;> simp [alookup]
    · simp only [if_neg hk]
      cases halook : alookup acc m₀ <;> simp [alookup, hk]
  · simp [hm]

theorem downtimeInsert_lookup (acc : DowntimeTable) (w₀ m₀ : Cell) (w : Cell) :
    downtimeLookup (listUpsert acc w₀ (insert m₀ ((alookup acc w₀).getD ∅))) w =
      if w₀ = w then insert m₀ (downtimeLookup acc w) else downtimeLookup acc w := by
  unfold downtimeLookup
  rw [alookup_listUpsert]
  by_cases hw : w₀ = w
  · simp [hw]
  · simp [hw]

/-! ### Error classification -/

theorem demandStep_err {acc : DemandTable} {r : Row} {e : LoadError}
    (h : demandStep acc r = .error e) : ∃ c, e = .keyError c := by
  cases h1 : alookup r "product_id" with
  | none =>
    simp [demandStep, rowGet, h1] at h
    exact ⟨"product_id", h.symm⟩
  | some p₀ =>
    cases h2 : alookup r "week_id" with
    | none =>
      simp [demandStep, rowGet, h1, h2] at h
      exact ⟨"week_id", h.symm⟩
    | some w₀ =>
      cases h3 : alookup r "demand" with
      | none =>
        simp [demandStep, rowGet, h1, h2, h3] at h
        exact ⟨"demand", h.symm⟩
      | some d₀ => simp [demandStep, rowGet, h1, h2, h3] at h

theorem capacityStep_err {acc : CapacityTable} {r : Row} {e : LoadError}
    (h : capacityStep acc r = .error e) : ∃ c, e = .keyError c := by
  cases h1 : alookup r "machine_id" with
  | none =>
    simp [capacityStep, rowGet, h1] at h
    exact ⟨"machine_id", h.symm⟩
  | some m₀ =>
    cases h2 : alookup r "product_id" with
    | none =>
      simp [capacityStep, rowGet, h1, h2] at h
      exact ⟨"product_id", h.symm⟩
    | some p₀ =>
      cases h3 : alookup r "week_cap" with
      | none =>
        simp [capacityStep, rowGet, h1, h2, h3] at h
        exact ⟨"week_cap", h.symm⟩
      | some c₀ => simp [capacityStep, rowGet, h1, h2, h3] at h

theorem transtimeStep_err {acc : TranstimeTable} {r : Row} {e : LoadError}
    (h : transtimeStep acc r = .error e) : ∃ c, e = .keyError c := by
  cases h1 : alookup r "machine_Id" with
  | none =>
    simp [transtimeStep, rowGet, h1] at h
    exact ⟨"machine_Id", h.symm⟩
  | some m₀ =>
    cases h2 : alookup r "from" with
    | none =>
      simp [transtimeStep, rowGet, h1, h2] at h
      exact ⟨"from", h.symm⟩
    | some f₀ =>
      cases h3 : alookup r "to" with
      | none =>
        simp [transtimeStep, rowGet, h1, h2, h3] at h
        exact ⟨"to", h.symm⟩
      | some t₀ =>
        cases h4 : alookup r "trans_time_days" with
        | none =>
          simp [transtimeStep, rowGet, h1, h2, h3, h4] at h
          exact ⟨"trans_time_days", h.symm⟩
        | some d₀ => simp [transtimeStep, rowGet, h1, h2, h3, h4] at h

theorem downtimeStep_err {acc : DowntimeTable} {r : Row} {e : LoadError}
    (h : downtimeStep acc r = .error e) : ∃ c, e = .keyError c := by
  cases h1 : alookup r "machine_Id" with
  | none =>
    simp [downtimeStep, rowGet, h1] at h
    exact ⟨"machine_Id", h.symm⟩
  | some m₀ =>
    cases h2 : alookup r "week_id" with
    | none =>
      simp [downtimeStep, rowGet, h1, h2] at h
      exact ⟨"week_id", h.symm⟩
    | some w₀ => simp [downtimeStep, rowGet, h1, h2] at h

theorem foldE_err {σ : Type} {f : σ → Row → Except LoadError σ}
    (hf : ∀ acc r e, f acc r = .error e → ∃ c, e = .keyError c) :
    ∀ (rows : List Row) (acc : σ) (e : LoadError),
      foldE f acc rows = .error e → ∃ c, e = .keyError c := by
  intro rows
  induction rows with
  | nil =>
    intro acc e h
    simp [foldE] at h
  | cons r rest ih =>
    intro acc e h
    unfold foldE at h
    cases hstep : f acc r with
    | error e' =>
      rw [hstep] at h
      obtain ⟨c, hc⟩ := hf acc r e' hstep
      injection h with h2
      exact ⟨c, h2 ▸ hc⟩
    | ok acc' =>
      rw [hstep] at h
      exact ih acc' e h

theorem runRead_err {fs : FileSystem} {p : FPath} {fmt : FileFormat} {e : LoadError}
    (h : runRead fs p fmt = .error e) :
    (∃ n, e = .notFound n) ∨ (∃ n, e = .parse n) := by
  cases fmt with
  | csv =>
    simp only [runRead, read_csv] at h
    cases hfd : alookup fs.files p with
    | none =>
      simp only [hfd] at h
      injection h with h2
      exact Or.inl ⟨p.name, h2.symm⟩
    | some fd =>
      simp only [hfd] at h
      by_cases hfmt : fd.format = .csv
      · rw [if_pos hfmt] at h
        exact Except.noConfusion h
      · rw [if_neg hfmt] at h
        injection h with h2
        exact Or.inr ⟨p.name, h2.symm⟩
  | excel =>
    simp only [runRead, read_excel] at h
    cases hfd : alookup fs.files p with
    | none =>
      simp only [hfd] at h
      injection h with h2
      exact Or.inl ⟨p.name, h2.symm⟩
    | some fd =>
      simp only [hfd] at h
      by_cases hfmt : fd.format = .excel
      · rw [if_pos hfmt] at h
        exact Except.noConfusion h
      · rw [if_neg hfmt] at h
        injection h with h2
        exact Or.inr ⟨p.name, h2.symm⟩

theorem runRead_ok {fs : FileSystem} {p : FPath} {fd : FileData} {fmt : FileFormat}
    {rows : List Row} (hfd : alookup fs.files p = some fd)
    (h : runRead fs p fmt = .ok rows) : rows = fd.rows := by
  cases fmt with
  | csv =>
    simp only [runRead, read_csv, hfd] at h
    by_cases hfmt : fd.format = .csv
    · rw [if_pos hfmt] at h
      injection h with h2
      exact h2.symm
    · rw [if_neg hfmt] at h
      exact Except.noConfusion h
  | excel =>
    simp only [runRead, read_excel, hfd] at h
    by_cases hfmt : fd.format = .excel
    · rw [if_pos hfmt] at h
      injection h with h2
      exact h2.symm
    · rw [if_neg hfmt] at h
      exact Except.noConfusion h

/-! ### Fold invariants -/

theorem demand_fold_wf (rows : List Row) :
    ∀ (acc T : DemandTable), foldE demandStep acc rows = .ok T →
      ∀ r ∈ rows, (alookup r "demand").isSome := by
  induction rows with
  | nil =>
    intro acc T _ r hr
    exact absurd hr (List.not_mem_nil r)
  | cons r0 rest ih =>
    intro acc T h r hr
    unfold foldE at h
    cases hstep : demandStep acc r0 with
    | error e =>
      rw [hstep] at h
      exact Except.noConfusion h
    | ok acc' =>
      rw [hstep] at h
      rcases List.mem_cons.mp hr with rfl | hr'
      · obtain ⟨p₀, w₀, d₀, _, _, hd, _⟩ := demandStep_ok hstep
        simp [hd]
      · exact ih acc' T h r hr'

theorem specLastDemand_cons (r : Row) (rest : List Row) (p w : Cell)
    (hwf : ∀ r' ∈ rest, specDemandKeyMatch p w r' = true → (alookup r' "demand").isSome) :
    specLastDemand (r :: rest) p w =
      (specLastDemand rest p w).or
        (if specDemandKeyMatch p w r then alookup r "demand" else none) := by
  unfold specLastDemand
  rw [List.reverse_cons, List.find?_append]
  cases hfind : rest.reverse.find? (specDemandKeyMatch p w) with
  | none =>
    simp only [Option.none_or, Option.none_bind]
    cases hmatch : specDemandKeyMatch p w r with
    | true => rw [List.find?_cons_of_pos _ hmatch]; simp
    | false => rw [List.find?_cons_of_neg _ (by simp [hmatch])]; simp
  | some r' =>
    have hmem : r' ∈ rest := List.mem_reverse.mp (List.mem_of_find?_eq_some hfind)
    have hpred := List.find?_some hfind
    obtain ⟨x, hx⟩ := Option.isSome_iff_exists.mp (hwf r' hmem hpred)
    simp [hx]

theorem demand_fold_lookup (rows : List Row) :
    ∀ (acc T : DemandTable), foldE demandStep acc rows = .ok T →
      ∀ p w, tableLookup2 T p w = (specLastDemand rows p w).or (tableLookup2 acc p w) := by
  induction rows with
  | nil =>
    intro acc T h p w
    unfold foldE at h
    injection h with h2
    subst h2
    simp [specLastDemand]
  | cons r rest ih =>
    intro acc T h p w
    unfold foldE at h
    cases hstep : demandStep acc r with
    | error e =>
      rw [hstep] at h
      exact Except.noConfusion h
    | ok acc' =>
      rw [hstep] at h
      obtain ⟨p₀, w₀, d₀, hp, hw, hd, hacc'⟩ := demandStep_ok hstep
      have ihv := ih acc' T h p w
      rw [hacc', demandInsert_lookup] at ihv
      have hkey : specDemandKeyMatch p w r = decide (p₀ = p ∧ w₀ = w) := by
        simp [specDemandKeyMatch, hp, hw, eq_comm]
      rw [specLastDemand_cons r rest p w
        (fun r' hm _ => demand_fold_wf rest acc' T h r' hm), ihv, hkey]
      by_cases hcond : p₀ = p ∧ w₀ = w
      · obtain ⟨rfl, rfl⟩ := hcond
        cases hS : specLastDemand rest p₀ w₀ <;> simp [hS, hd]
      · simp [hkey, hcond, Option.or_none]

theorem specFirstTrans_cons (r : Row) (rest : List Row) (m f t : Cell) :
    specFirstTrans (r :: rest) m f t =
      if specTransKeyMatch m f t r then alookup r "trans_time_days"
      else specFirstTrans rest m f t := by
  unfold specFirstTrans
  cases hmatch : specTransKeyMatch m f t r with
  | true => rw [List.find?_cons_of_pos _ hmatch]; simp
  | false => rw [List.find?_cons_of_neg _ (by simp [hmatch])]; simp

theorem trans_fold_lookup (rows : List Row) :
    ∀ (acc T : TranstimeTable), foldE transtimeStep acc rows = .ok T →
      ∀ m f t, tableLookup2 T m (f, t) =
        (tableLookup2 acc m (f, t)).or (specFirstTrans rows m f t) := by
  induction rows with
  | nil =>
    intro acc T h m f t
    unfold foldE at h
    injection h with h2
    subst h2
    simp [specFirstTrans, Option.or_none]
  | cons r rest ih =>
    intro acc T h m f t
    unfold foldE at h
    cases hstep : transtimeStep acc r with
    | error e =>
      rw [hstep] at h
      exact Except.noConfusion h
    | ok acc' =>
      rw [hstep] at h
      obtain ⟨m₀, f₀, t₀, d₀, hm, hf, ht, hd, hacc'⟩ := transtimeStep_ok hstep
      have ihv := ih acc' T h m f t
      rw [hacc', transInsert_lookup] at ihv
      have hkey : specTransKeyMatch m f t r = decide (m₀ = m ∧ f₀ = f ∧ t₀ = t) := by
        simp [specTransKeyMatch, hm, hf, ht, eq_comm]
      rw [specFirstTrans_cons, ihv, hkey]
      by_cases hcond : m₀ = m ∧ f₀ = f ∧ t₀ = t
      · obtain ⟨rfl, rfl, rfl⟩ := hcond
        cases hA : tableLookup2 acc m₀ (f₀, t₀) <;> simp [hA, hd]
      · simp [hkey, hcond, Prod.mk.injEq]

theorem downtime_fold_lookup (rows : List Row) :
    ∀ (acc T : DowntimeTable), foldE downtimeStep acc rows = .ok T →
      ∀ w, downtimeLookup T w = downtimeLookup acc w ∪ specDowntimeMachines rows w := by
  induction rows with
  | nil =>
    intro acc T h w
    unfold foldE at h
    injection h with h2
    subst h2
    simp [specDowntimeMachines]
  | cons r rest ih =>
    intro acc T h w
    unfold foldE at h
    cases hstep : downtimeStep acc r with
    | error e =>
      rw [hstep] at h
      exact Except.noConfusion h
    | ok acc' =>
      rw [hstep] at h
      obtain ⟨m₀, w₀, hm, hw, hacc'⟩ := downtimeStep_ok hstep
      have ihv := ih acc' T h w
      rw [hacc', downtimeInsert_lookup] at ihv
      have hspec : specDowntimeMachines (r :: rest) w =
          if w₀ = w then insert m₀ (specDowntimeMachines rest w)
          else specDowntimeMachines rest w := by
        unfold specDowntimeMachines
        rw [List.filterMap_cons, hw]
        by_cases hww : w₀ = w
        · subst hww
          rw [hm, if_pos rfl, if_pos rfl]
          simp
        · rw [if_neg (by simp [hww]), if_neg hww]
      rw [ihv, hspec]
      by_cases hww : w₀ = w
      · rw [if_pos hww, if_pos hww, Finset.insert_union, Finset.union_insert]
      · rw [if_neg hww, if_neg hww]

/-! ### Rows-level and construction-level plumbing -/

theorem fileInput_mk_file_path (p : FPath) : (FileInput.mk p).file_path = p := rfl

theorem load_demand_rows_lookup {rows : List Row} {T : DemandTable}
    (h : load_demand_rows rows = .ok T) (p w : Cell) :
    tableLookup2 T p w = specLastDemand rows p w := by
  have h' : foldE demandStep [] rows = .ok T := h
  have hx := demand_fold_lookup rows [] T h' p w
  simpa [tableLookup2, alookup, Option.or_none] using hx

theorem load_transtime_rows_lookup {rows : List Row} {T : TranstimeTable}
    (h : load_transtime_rows rows = .ok T) (m f t : Cell) :
    tableLookup2 T m (f, t) = specFirstTrans rows m f t := by
  have h' : foldE transtimeStep [] rows = .ok T := h
  have hx := trans_fold_lookup rows [] T h' m f t
  simpa [tableLookup2, alookup] using hx

theorem load_downtime_rows_lookup {rows : List Row} {T : DowntimeTable}
    (h : load_downtime_rows rows = .ok T) (w : Cell) :
    downtimeLookup T w = specDowntimeMachines rows w := by
  have h' : foldE downtimeStep [] rows = .ok T := h
  have hx := downtime_fold_lookup rows [] T h' w
  simpa [downtimeLookup, alookup] using hx

theorem demand_construct_rows {fs : FileSystem} {p : FPath} {fd : FileData}
    {T : DemandTable} (hfd : alookup fs.files p = some fd)
    (h : DemandLoader.construct fs p = .ok T) : load_demand_rows fd.rows = .ok T := by
  simp only [DemandLoader.construct, load_demand_data, fileInput_mk_file_path] at h
  cases hrun : runRead fs p (demandDispatch p) with
  | error e =>
    simp only [hrun] at h
    exact Except.noConfusion h
  | ok rows =>
    simp only [hrun] at h
    rw [runRead_ok hfd hrun] at h
    exact h

theorem capacity_construct_rows {fs : FileSystem} {p : FPath} {fd : FileData}
    {T : CapacityTable} (hfd : alookup fs.files p = some fd)
    (h : CapacityLoader.construct fs p = .ok T) : load_capacity_rows fd.rows = .ok T := by
  simp only [CapacityLoader.construct, load_capacity_data, fileInput_mk_file_path] at h
  cases hrun : runRead fs p (capacityDispatch p) with
  | error e =>
    simp only [hrun] at h
    exact Except.noConfusion h
  | ok rows =>
    simp only [hrun] at h
    rw [runRead_ok hfd hrun] at h
    exact h

theorem trans_construct_rows {fs : FileSystem} {p : FPath} {fd : FileData}
    {T : TranstimeTable} (hfd : alookup fs.files p = some fd)
    (h : TranstimeLoader.construct fs p = .ok T) : load_transtime_rows fd.rows = .ok T := by
  simp only [TranstimeLoader.construct, load_transition_times, fileInput_mk_file_path] at h
  cases hdisp : transtimeDispatch p with
  | error e =>
    simp only [hdisp] at h
    exact Except.noConfusion h
  | ok fmt =>
    simp only [hdisp] at h
    cases hrun : runRead fs p fmt with
    | error e =>
      simp only [hrun] at h
      exact Except.noConfusion h
    | ok rows =>
      simp only [hrun] at h
      rw [runRead_ok hfd hrun] at h
      exact h

theorem downtime_construct_rows {fs : FileSystem} {p : FPath} {fd : FileData}
    {T : DowntimeTable} (hfd : alookup fs.files p = some fd)
    (h : DowntimeLoader.construct fs p = .ok T) : load_downtime_rows fd.rows = .ok T := by
  simp only [DowntimeLoader.construct, load_downtime_data, fileInput_mk_file_path] at h
  cases hdisp : downtimeDispatch p with
  | error e =>
    simp only [hdisp] at h
    exact Except.noConfusion h
  | ok fmt =>
    simp only [hdisp] at h
    cases hrun : runRead fs p fmt with
    | error e =>
      simp only [hrun] at h
      exact Except.noConfusion h
    | ok rows =>
      simp only [hrun] at h
      rw [runRead_ok hfd hrun] at h
      exact h

theorem runRead_notFound {fs : FileSystem} {p : FPath} (fmt : FileFormat)
    (h : alookup fs.files p = none) :
    runRead fs p fmt = .error (.notFound p.name) := by
  cases fmt <;> simp [runRead, read_csv, read_excel, h]

/-! ### Non-empty inner structures -/

theorem dictValuesNonempty_nil {κ α : Type} [DecidableEq κ] :
    dictValuesNonempty ([] : List (κ × List α)) := by
  intro k inner h
  simp [alookup] at h

theorem setValuesNonempty_nil : setValuesNonempty ([] : DowntimeTable) := by
  intro k s h
  simp [alookup] at h

theorem dictValuesNonempty_upsert {κ α : Type} [DecidableEq κ] {T : List (κ × List α)}
    {k : κ} {v : List α} (hT : dictValuesNonempty T) (hv : v ≠ []) :
    dictValuesNonempty (listUpsert T k v) := by
  intro k' inner hl
  rw [alookup_listUpsert] at hl
  by_cases h : k = k'
  · rw [if_pos h] at hl
    injection hl with h2
    exact h2 ▸ hv
  · rw [if_neg h] at hl
    exact hT k' inner hl

theorem setValuesNonempty_upsert {T : DowntimeTable} {k : Cell} {v : Finset Cell}
    (hT : setValuesNonempty T) (hv : v ≠ ∅) : setValuesNonempty (listUpsert T k v) := by
  intro k' s hl
  rw [alookup_listUpsert] at hl
  by_cases h : k = k'
  · rw [if_pos h] at hl
    injection hl with h2
    exact h2 ▸ hv
  · rw [if_neg h] at hl
    exact hT k' s hl

theorem demand_fold_nonempty (rows : List Row) :
    ∀ (acc T : DemandTable), dictValuesNonempty acc →
      foldE demandStep acc rows = .ok T → dictValuesNonempty T := by
  induction rows with
  | nil =>
    intro acc T hacc h
    unfold foldE at h
    injection h with h2
    exact h2 ▸ hacc
  | cons r rest ih =>
    intro acc T hacc h
    unfold foldE at h
    cases hstep : demandStep acc r with
    | error e =>
      rw [hstep] at h
      exact Except.noConfusion h
    | ok acc' =>
      rw [hstep] at h
      obtain ⟨p₀, w₀, d₀, _, _, _, hacc'⟩ := demandStep_ok hstep
      refine ih acc' T ?_ h
      rw [hacc']
      exact dictValuesNonempty_upsert hacc (listUpsert_ne_nil _ _ _)

theorem capacity_fold_nonempty (rows : List Row) :
    ∀ (acc T : CapacityTable), dictValuesNonempty acc →
      foldE capacityStep acc rows = .ok T → dictValuesNonempty T := by
  induction rows with
  | nil =>
    intro acc T hacc h
    unfold foldE at h
    injection h with h2
    exact h2 ▸ hacc
  | cons r rest ih =>
    intro acc T hacc h
    unfold foldE at h
    cases hstep : capacityStep acc r with
    | error e =>
      rw [hstep] at h
      exact Except.noConfusion h
    | ok acc' =>
      rw [hstep] at h
      obtain ⟨m₀, p₀, c₀, _, _, _, hacc'⟩ := capacityStep_ok hstep
      refine ih acc' T ?_ h
      rw [hacc']
      exact dictValuesNonempty_upsert hacc (listUpsert_ne_nil _ _ _)

theorem trans_fold_nonempty (rows : List Row) :
    ∀ (acc T : TranstimeTable), dictValuesNonempty acc →
      foldE transtimeStep acc rows = .ok T → dictValuesNonempty T := by
  induction rows with
  | nil =>
    intro acc T hacc h
    unfold foldE at h
    injection h with h2
    exact h2 ▸ hacc
  | cons r rest ih =>
    intro acc T hacc h
    unfold foldE at h
    cases hstep : transtimeStep acc r with
    | error e =>
      rw [hstep] at h
      exact Except.noConfusion h
    | ok acc' =>
      rw [hstep] at h
      obtain ⟨m₀, f₀, t₀, d₀, _, _, _, _, hacc'⟩ := transtimeStep_ok hstep
      refine ih acc' T ?_ h
      rw [hacc']
      exact dictValuesNonempty_upsert hacc (listSetdefault_ne_nil _ _ _)

theorem downtime_fold_nonempty (rows : List Row) :
    ∀ (acc T : DowntimeTable), setValuesNonempty acc →
      foldE downtimeStep acc rows = .ok T → setValuesNonempty T := by
  induction rows with
  | nil =>
    intro acc T hacc h
    unfold foldE at h
    injection h with h2
    exact h2 ▸ hacc
  | cons r rest ih =>
    intro acc T hacc h
    unfold foldE at h
    cases hstep : downtimeStep acc r with
    | error e =>
      rw [hstep] at h
      exact Except.noConfusion h
    | ok acc' =>
      rw [hstep] at h
      obtain ⟨m₀, w₀, _, _, hacc'⟩ := downtimeStep_ok hstep
      refine ih acc' T ?_ h
      rw [hacc']
      exact setValuesNonempty_upsert hacc (Finset.insert_ne_empty _ _)

/-! ### Dispatch and error classification -/

theorem transtimeDispatch_err {p : FPath} {e : LoadError}
    (h : transtimeDispatch p = .error e) :
    e = .format "Unsupported file format. Please provide a CSV or Excel file." ∧
      strLower p.suffix ≠ ".csv" ∧ strLower p.suffix ≠ ".xlsx" := by
  unfold transtimeDispatch at h
  by_cases h1 : strLower p.suffix = ".csv"
  · rw [if_pos h1] at h
    exact Except.noConfusion h
  · rw [if_neg h1] at h
    by_cases h2 : strLower p.suffix = ".xlsx"
    · rw [if_pos h2] at h
      exact Except.noConfusion h
    · rw [if_neg h2] at h
      injection h with h3
      exact ⟨h3.symm, h1, h2⟩

theorem downtimeDispatch_err {p : FPath} {e : LoadError}
    (h : downtimeDispatch p = .error e) :
    e = .format "Unsupported file format. Please provide a CSV or Excel file." ∧
      strLower p.suffix ≠ ".csv" ∧ strLower p.suffix ≠ ".xlsx" := by
  unfold downtimeDispatch at h
  by_cases h1 : strLower p.suffix = ".csv"
  · rw [if_pos h1] at h
    exact Except.noConfusion h
  · rw [if_neg h1] at h
    by_cases h2 : strLower p.suffix = ".xlsx"
    · rw [if_pos h2] at h
      exact Except.noConfusion h
    · rw [if_neg h2] at h
      injection h with h3
      exact ⟨h3.symm, h1, h2⟩

theorem transtimeDispatch_format {p : FPath} (h1 : strLower p.suffix ≠ ".csv")
    (h2 : strLower p.suffix ≠ ".xlsx") :
    transtimeDispatch p =
      .error (.format "Unsupported file format. Please provide a CSV or Excel file.") := by
  unfold transtimeDispatch
  rw [if_neg h1, if_neg h2]

theorem downtimeDispatch_format {p : FPath} (h1 : strLower p.suffix ≠ ".csv")
    (h2 : strLower p.suffix ≠ ".xlsx") :
    downtimeDispatch p =
      .error (.format "Unsupported file format. Please provide a CSV or Excel file.") := by
  unfold downtimeDispatch
  rw [if_neg h1, if_neg h2]

theorem demand_construct_err {fs : FileSystem} {p : FPath} {e : LoadError}
    (h : DemandLoader.construct fs p = .error e) :
    (∃ n, e = .notFound n) ∨ (∃ n, e = .parse n) ∨ (∃ c, e = .keyError c) := by
  simp only [DemandLoader.construct, load_demand_data, fileInput_mk_file_path] at h
  cases hrun : runRead fs p (demandDispatch p) with
  | error e' =>
    simp only [hrun] at h
    injection h with h2
    rcases runRead_err hrun with ⟨n, hn⟩ | ⟨n, hn⟩
    · exact Or.inl ⟨n, h2 ▸ hn⟩
    · exact Or.inr (Or.inl ⟨n, h2 ▸ hn⟩)
  | ok rows =>
    simp only [hrun] at h
    have h' : foldE demandStep [] rows = .error e := h
    obtain ⟨c, hc⟩ := foldE_err (fun acc r e2 h2 => demandStep_err h2) rows [] e h'
    exact Or.inr (Or.inr ⟨c, hc⟩)

theorem capacity_construct_err {fs : FileSystem} {p : FPath} {e : LoadError}
    (h : CapacityLoader.construct fs p = .error e) :
    (∃ n, e = .notFound n) ∨ (∃ n, e = .parse n) ∨ (∃ c, e = .keyError c) := by
  simp only [CapacityLoader.construct, load_capacity_data, fileInput_mk_file_path] at h
  cases hrun : runRead fs p (capacityDispatch p) with
  | error e' =>
    simp only [hrun] at h
    injection h with h2
    rcases runRead_err hrun with ⟨n, hn⟩ | ⟨n, hn⟩
    · exact Or.inl ⟨n, h2 ▸ hn⟩
    · exact Or.inr (Or.inl ⟨n, h2 ▸ hn⟩)
  | ok rows =>
    simp only [hrun] at h
    have h' : foldE capacityStep [] rows = .error e := h
    obtain ⟨c, hc⟩ := foldE_err (fun acc r e2 h2 => capacityStep_err h2) rows [] e h'
    exact Or.inr (Or.inr ⟨c, hc⟩)

theorem trans_construct_err {fs : FileSystem} {p : FPath} {e : LoadError}
    (h : TranstimeLoader.construct fs p = .error e) :
    (e = .format "Unsupported file format. Please provide a CSV or Excel file." ∧
        strLower p.suffix ≠ ".csv" ∧ strLower p.suffix ≠ ".xlsx") ∨
      (∃ n, e = .notFound n) ∨ (∃ n, e = .parse n) ∨ (∃ c, e = .keyError c) := by
  simp only [TranstimeLoader.construct, load_transition_times, fileInput_mk_file_path] at h
  cases hdisp : transtimeDispatch p with
  | error e' =>
    simp only [hdisp] at h
    injection h with h2
    obtain ⟨hfmt, h1, h2'⟩ := transtimeDispatch_err hdisp
    exact Or.inl ⟨h2 ▸ hfmt, h1, h2'⟩
  | ok fmt =>
    simp only [hdisp] at h
    cases hrun : runRead fs p fmt with
    | error e' =>
      simp only [hrun] at h
      injection h with h2
      rcases runRead_err hrun with ⟨n, hn⟩ | ⟨n, hn⟩
      · exact Or.inr (Or.inl ⟨n, h2 ▸ hn⟩)
      · exact Or.inr (Or.inr (Or.inl ⟨n, h2 ▸ hn⟩))
    | ok rows =>
      simp only [hrun] at h
      have h' : foldE transtimeStep [] rows = .error e := h
      obtain ⟨c, hc⟩ := foldE_err (fun acc r e2 h2 => transtimeStep_err h2) rows [] e h'
      exact Or.inr (Or.inr (Or.inr ⟨c, hc⟩))

theorem downtime_construct_err {fs : FileSystem} {p : FPath} {e : LoadError}
    (h : DowntimeLoader.construct fs p = .error e) :
    (e = .format "Unsupported file format. Please provide a CSV or Excel file." ∧
        strLower p.suffix ≠ ".csv" ∧ strLower p.suffix ≠ ".xlsx") ∨
      (∃ n, e = .notFound n) ∨ (∃ n, e = .parse n) ∨ (∃ c, e = .keyError c) := by
  simp only [DowntimeLoader.construct, load_downtime_data, fileInput_mk_file_path] at h
  cases hdisp : downtimeDispatch p with
  | error e' =>
    simp only [hdisp] at h
    injection h with h2
    obtain ⟨hfmt, h1, h2'⟩ := downtimeDispatch_err hdisp
    exact Or.inl ⟨h2 ▸ hfmt, h1, h2'⟩
  | ok fmt =>
    simp only [hdisp] at h
    cases hrun : runRead fs p fmt with
    | error e' =>
      simp only [hrun] at h
      injection h with h2
      rcases runRead_err hrun with ⟨n, hn⟩ | ⟨n, hn⟩
      · exact Or.inr (Or.inl ⟨n, h2 ▸ hn⟩)
      · exact Or.inr (Or.inr (Or.inl ⟨n, h2 ▸ hn⟩))
    | ok rows =>
      simp only [hrun] at h
      have h' : foldE downtimeStep [] rows = .error e := h
      obtain ⟨c, hc⟩ := foldE_err (fun acc r e2 h2 => downtimeStep_err h2) rows [] e h'
      exact Or.inr (Or.inr (Or.inr ⟨c, hc⟩))

theorem demand_construct_no_val_fmt (fs : FileSystem) (p : FPath) :
    isValidationErr (DemandLoader.construct fs p) = false ∧
      isFormatErr (DemandLoader.construct fs p) = false := by
  cases hres : DemandLoader.construct fs p with
  | ok T => simp [isValidationErr, isFormatErr]
  | error e =>
    rcases demand_construct_err hres with ⟨n, rfl⟩ | ⟨n, rfl⟩ | ⟨c, rfl⟩ <;>
      simp [isValidationErr, isFormatErr]

theorem capacity_construct_no_val_fmt (fs : FileSystem) (p : FPath) :
    isValidationErr (CapacityLoader.construct fs p) = false ∧
      isFormatErr (CapacityLoader.construct fs p) = false := by
  cases hres : CapacityLoader.construct fs p with
  | ok T => simp [isValidationErr, isFormatErr]
  | error e =>
    rcases capacity_construct_err hres with ⟨n, rfl⟩ | ⟨n, rfl⟩ | ⟨c, rfl⟩ <;>
      simp [isValidationErr, isFormatErr]

theorem trans_construct_no_val (fs : FileSystem) (p : FPath) :
    isValidationErr (TranstimeLoader.construct fs p) = false := by
  cases hres : TranstimeLoader.construct fs p with
  | ok T => simp [isValidationErr]
  | error e =>
    rcases trans_construct_err hres with ⟨rfl, _, _⟩ | ⟨n, rfl⟩ | ⟨n, rfl⟩ | ⟨c, rfl⟩ <;>
      simp [isValidationErr]

theorem downtime_construct_no_val (fs : FileSystem) (p : FPath) :
    isValidationErr (DowntimeLoader.construct fs p) = false := by
  cases hres : DowntimeLoader.construct fs p with
  | ok T => simp [isValidationErr]
  | error e =>
    rcases downtime_construct_err hres with ⟨rfl, _, _⟩ | ⟨n, rfl⟩ | ⟨n, rfl⟩ | ⟨c, rfl⟩ <;>
      simp [isValidationErr]

theorem trans_construct_no_fmt {fs : FileSystem} {p : FPath}
    (hext : strLower p.suffix = ".csv" ∨ strLower p.suffix = ".xlsx") :
    isFormatErr (TranstimeLoader.construct fs p) = false := by
  cases hres : TranstimeLoader.construct fs p with
  | ok T => simp [isFormatErr]
  | error e =>
    rcases trans_construct_err hres with ⟨rfl, h1, h2⟩ | ⟨n, rfl⟩ | ⟨n, rfl⟩ | ⟨c, rfl⟩
    · rcases hext with hx | hx
      · exact absurd hx h1
      · exact absurd hx h2
    all_goals simp [isFormatErr]

theorem downtime_construct_no_fmt {fs : FileSystem} {p : FPath}
    (hext : strLower p.suffix = ".csv" ∨ strLower p.suffix = ".xlsx") :
    isFormatErr (DowntimeLoader.construct fs p) = false := by
  cases hres : DowntimeLoader.construct fs p with
  | ok T => simp [isFormatErr]
  | error e =>
    rcases downtime_construct_err hres with ⟨rfl, h1, h2⟩ | ⟨n, rfl⟩ | ⟨n, rfl⟩ | ⟨c, rfl⟩
    · rcases hext with hx | hx
      · exact absurd hx h1
      · exact absurd hx h2
    all_goals simp [isFormatErr]

theorem demand_construct_notFound {fs : FileSystem} {p : FPath}
    (h : alookup fs.files p = none) :
    DemandLoader.construct fs p = .error (.notFound p.name) := by
  simp only [DemandLoader.construct, load_demand_data, fileInput_mk_file_path,
    runRead_notFound (demandDispatch p) h]

theorem capacity_construct_notFound {fs : FileSystem} {p : FPath}
    (h : alookup fs.files p = none) :
    CapacityLoader.construct fs p = .error (.notFound p.name) := by
  simp only [CapacityLoader.construct, load_capacity_data, fileInput_mk_file_path,
    runRead_notFound (capacityDispatch p) h]

theorem trans_construct_notFound {fs : FileSystem} {p : FPath}
    (h : alookup fs.files p = none)
    (hext : strLower p.suffix = ".csv" ∨ strLower p.suffix = ".xlsx") :
    TranstimeLoader.construct fs p = .error (.notFound p.name) := by
  have hdisp : ∃ fmt, transtimeDispatch p = .ok fmt := by
    rcases hext with hx | hx
    · exact ⟨.csv, by unfold transtimeDispatch; rw [if_pos hx]⟩
    · refine ⟨.excel, ?_⟩
      unfold transtimeDispatch
      by_cases h1 : strLower p.suffix = ".csv"
      · rw [hx] at h1
        exact absurd h1 (by decide)
      · rw [if_neg h1, if_pos hx]
  obtain ⟨fmt, hfmt⟩ := hdisp
  simp only [TranstimeLoader.construct, load_transition_times, fileInput_mk_file_path,
    hfmt, runRead_notFound fmt h]

theorem downtime_construct_notFound {fs : FileSystem} {p : FPath}
    (h : alookup fs.files p = none)
    (hext : strLower p.suffix = ".csv" ∨ strLower p.suffix = ".xlsx") :
    DowntimeLoader.construct fs p = .error (.notFound p.name) := by
  have hdisp : ∃ fmt, downtimeDispatch p = .ok fmt := by
    rcases hext with hx | hx
    · exact ⟨.csv, by unfold downtimeDispatch; rw [if_pos hx]⟩
    · refine ⟨.excel, ?_⟩
      unfold downtimeDispatch
      by_cases h1 : strLower p.suffix = ".csv"
      · rw [hx] at h1
        exact absurd h1 (by decide)
      · rw [if_neg h1, if_pos hx]
  obtain ⟨fmt, hfmt⟩ := hdisp
  simp only [DowntimeLoader.construct, load_downtime_data, fileInput_mk_file_path,
    hfmt, runRead_notFound fmt h]

theorem trans_construct_format {fs : FileSystem} {p : FPath}
    (h1 : strLower p.suffix ≠ ".csv") (h2 : strLower p.suffix ≠ ".xlsx") :
    TranstimeLoader.construct fs p =
      .error (.format "Unsupported file format. Please provide a CSV or Excel file.") := by
  simp only [TranstimeLoader.construct, load_transition_times, fileInput_mk_file_path,
    transtimeDispatch_format h1 h2]

theorem downtime_construct_format {fs : FileSystem} {p : FPath}
    (h1 : strLower p.suffix ≠ ".csv") (h2 : strLower p.suffix ≠ ".xlsx") :
    DowntimeLoader.construct fs p =
      .error (.format "Unsupported file format. Please provide a CSV or Excel file.") := by
  simp only [DowntimeLoader.construct, load_downtime_data, fileInput_mk_file_path,
    downtimeDispatch_format h1 h2]

theorem validate_file_path_notFound {fs : FileSystem} {p : FPath}
    (h : pathExists fs p = false) :
    validate_file_path fs p = .error (.validation "File does not exist.") := by
  simp [validate_file_path, h]

theorem transtimeDispatch_ok_of_accepted {p : FPath}
    (hext : strLower p.suffix = ".csv" ∨ strLower p.suffix = ".xlsx") :
    ∃ fmt, transtimeDispatch p = .ok fmt := by
  rcases hext with hx | hx
  · exact ⟨.csv, by unfold transtimeDispatch; rw [if_pos hx]⟩
  · refine ⟨.excel, ?_⟩
    unfold transtimeDispatch
    by_cases h1 : strLower p.suffix = ".csv"
    · rw [hx] at h1
      exact absurd h1 (by decide)
    · rw [if_neg h1, if_pos hx]

theorem downtimeDispatch_ok_of_accepted {p : FPath}
    (hext : strLower p.suffix = ".csv" ∨ strLower p.suffix = ".xlsx") :
    ∃ fmt, downtimeDispatch p = .ok fmt := by
  rcases hext with hx | hx
  · exact ⟨.csv, by unfold downtimeDispatch; rw [if_pos hx]⟩
  · refine ⟨.excel, ?_⟩
    unfold downtimeDispatch
    by_cases h1 : strLower p.suffix = ".csv"
    · rw [hx] at h1
      exact absurd h1 (by decide)
    · rw [if_neg h1, if_pos hx]

theorem demand_construct_ok_rows {fs : FileSystem} {p : FPath} {T : DemandTable}
    (h : DemandLoader.construct fs p = .ok T) :
    ∃ rows, load_demand_rows rows = .ok T := by
  simp only [DemandLoader.construct, load_demand_data, fileInput_mk_file_path] at h
  cases hrun : runRead fs p (demandDispatch p) with
  | error e =>
    simp only [hrun] at h
    exact Except.noConfusion h
  | ok rows =>
    simp only [hrun] at h
    exact ⟨rows, h⟩

theorem capacity_construct_ok_rows {fs : FileSystem} {p : FPath} {T : CapacityTable}
    (h : CapacityLoader.construct fs p = .ok T) :
    ∃ rows, load_capacity_rows rows = .ok T := by
  simp only [CapacityLoader.construct, load_capacity_data, fileInput_mk_file_path] at h
  cases hrun : runRead fs p (capacityDispatch p) with
  | error e =>
    simp only [hrun] at h
    exact Except.noConfusion h
  | ok rows =>
    simp only [hrun] at h
    exact ⟨rows, h⟩

theorem trans_construct_ok_rows {fs : FileSystem} {p : FPath} {T : TranstimeTable}
    (h : TranstimeLoader.construct fs p = .ok T) :
    ∃ rows, load_transtime_rows rows = .ok T := by
  simp only [TranstimeLoader.construct, load_transition_times, fileInput_mk_file_path] at h
  cases hdisp : transtimeDispatch p with
  | error e =>
    simp only [hdisp] at h
    exact Except.noConfusion h
  | ok fmt =>
    simp only [hdisp] at h
    cases hrun : runRead fs p fmt with
    | error e =>
      simp only [hrun] at h
      exact Except.noConfusion h
    | ok rows =>
      simp only [hrun] at h
      exact ⟨rows, h⟩

theorem downtime_construct_ok_rows {fs : FileSystem} {p : FPath} {T : DowntimeTable}
    (h : DowntimeLoader.construct fs p = .ok T) :
    ∃ rows, load_downtime_rows rows = .ok T := by
  simp only [DowntimeLoader.construct, load_downtime_data, fileInput_mk_file_path] at h
  cases hdisp : downtimeDispatch p with
  | error e =>
    simp only [hdisp] at h
    exact Except.noConfusion h
  | ok fmt =>
    simp only [hdisp] at h
    cases hrun : runRead fs p fmt with
    | error e =>
      simp only [hrun] at h
      exact Except.noConfusion h
    | ok rows =>
      simp only [hrun] at h
      exact ⟨rows, h⟩

/-! ### Claim theorems -/

/-- Claim C1: for every valid transition-time file, after constructing
`TranstimeLoader` the value `transtime_data[m][(f,t)]` equals the
`trans_time_days` value of the first row in file order whose
(machine_Id, from, to) fields equal (m, f, t); a later row with the same key
leaves the stored value unchanged (first-write-wins). -/
theorem C1_transtime_first_write_wins (fs : FileSystem) (p : FPath) (fd : FileData)
    (T : TranstimeTable) (hfd : alookup fs.files p = some fd)
    (h : TranstimeLoader.construct fs p = .ok T) :
    (∀ m f t, tableLookup2 T m (f, t) = specFirstTrans fd.rows m f t) ∧
    (∀ rows' T' m f t d, load_transtime_rows (fd.rows ++ rows') = .ok T' →
      specFirstTrans fd.rows m f t = some d → tableLookup2 T' m (f, t) = some d) := by
  have hrows := trans_construct_rows hfd h
  refine ⟨fun m f t => load_transtime_rows_lookup hrows m f t, ?_⟩
  intro rows' T' m f t d h' hfirst
  rw [load_transtime_rows_lookup h' m f t]
  unfold specFirstTrans at hfirst ⊢
  cases hfind : fd.rows.find? (specTransKeyMatch m f t) with
  | none =>
    rw [hfind] at hfirst
    simp at hfirst
  | some r' =>
    rw [hfind] at hfirst
    rw [List.find?_append, hfind]
    simpa using hfirst

/-- Witness for C1: on the sample transition file whose two rows share the key
(machine_1, product_1, product_2), the stored value is the first row's 5. -/
theorem C1_transtime_first_write_wins_witness :
    tableLookup2 sampleTransTable (.str "machine_1")
        (.str "product_1", .str "product_2") =
      specFirstTrans sampleTransRows (.str "machine_1") (.str "product_1")
        (.str "product_2") :=
  (C1_transtime_first_write_wins sampleTransFS pTransX ⟨.excel, sampleTransRows⟩
    sampleTransTable (by decide) (by decide)).1 _ _ _

/-- Claim C2: for every valid demand file, after constructing `DemandLoader`
the value `demand_data[p][w]` equals the `demand` value of the last row in
file order with that (product_id, week_id) pair (last-write-wins). -/
theorem C2_demand_last_write_wins (fs : FileSystem) (p : FPath) (fd : FileData)
    (T : DemandTable) (hfd : alookup fs.files p = some fd)
    (h : DemandLoader.construct fs p = .ok T) :
    ∀ pk w, tableLookup2 T pk w = specLastDemand fd.rows pk w :=
  fun pk w => load_demand_rows_lookup (demand_construct_rows hfd h) pk w

/-- Witness for C2: on the sample demand file whose first and third rows share
the key (product_1, week_1), the stored value is the last row's 99. -/
theorem C2_demand_last_write_wins_witness :
    tableLookup2 sampleDemandTable (.str "product_1") (.str "week_1") =
      specLastDemand sampleDemandRows (.str "product_1") (.str "week_1") :=
  C2_demand_last_write_wins sampleDemandFS pDemandX ⟨.excel, sampleDemandRows⟩
    sampleDemandTable (by decide) (by decide) _ _

/-- Claim C3: for every valid downtime file, `downtime_data[w]` is exactly the
set of distinct machine_Id values among the rows with week_id = w, and the
result is invariant under permuting the rows and under duplicating them. -/
theorem C3_downtime_distinct_machines (fs : FileSystem) (p : FPath) (fd : FileData)
    (T : DowntimeTable) (hfd : alookup fs.files p = some fd)
    (h : DowntimeLoader.construct fs p = .ok T) :
    (∀ w, downtimeLookup T w = specDowntimeMachines fd.rows w) ∧
    (∀ rows', fd.rows.Perm rows' → ∀ T', load_downtime_rows rows' = .ok T' →
      ∀ w, downtimeLookup T' w = downtimeLookup T w) ∧
    (∀ T', load_downtime_rows (fd.rows ++ fd.rows) = .ok T' →
      ∀ w, downtimeLookup T' w = downtimeLookup T w) := by
  have hrows := downtime_construct_rows hfd h
  have hmain : ∀ w, downtimeLookup T w = specDowntimeMachines fd.rows w :=
    fun w => load_downtime_rows_lookup hrows w
  refine ⟨hmain, ?_, ?_⟩
  · intro rows' hperm T' h' w
    rw [load_downtime_rows_lookup h' w, hmain w]
    unfold specDowntimeMachines
    exact (List.toFinset_eq_of_perm _ _ (hperm.filterMap _)).symm
  · intro T' h' w
    rw [load_downtime_rows_lookup h' w, hmain w]
    unfold specDowntimeMachines
    rw [List.filterMap_append, List.toFinset_append, Finset.union_self]

/-- Witness for C3: on the sample downtime file (with a duplicate row),
`downtime_data[week_1]` is the set of the distinct machines of week_1. -/
theorem C3_downtime_distinct_machines_witness :
    downtimeLookup sampleDownTable (.str "week_1") =
      specDowntimeMachines sampleDownRows (.str "week_1") :=
  (C3_downtime_distinct_machines sampleDownFS pDownX ⟨.excel, sampleDownRows⟩
    sampleDownTable (by decide) (by decide)).1 _

/-- Counterexample to C4 as stated: for the nonexistent path
`input/demand.xlsx` over an empty filesystem, constructing the loaders does
not raise ValidationError at all — the demand loader fails only at the parse
step, with pandas' FileNotFoundError. -/
theorem C4_counterexample :
    pathExists emptyFS pDemandX = false ∧
    DemandLoader.construct emptyFS pDemandX = .error (.notFound "input/demand.xlsx") ∧
    isValidationErr (DemandLoader.construct emptyFS pDemandX) = false ∧
    isValidationErr (CapacityLoader.construct emptyFS pDemandX) = false ∧
    isValidationErr (TranstimeLoader.construct emptyFS pDemandX) = false ∧
    isValidationErr (DowntimeLoader.construct emptyFS pDemandX) = false := by
  decide

/-- Claim C4 (amended): for every nonexistent path, no loader raises
ValidationError: `FileInput` performs no validation, so construction reaches
the parse step and fails there with FileNotFoundError (for the
transition-time and downtime loaders, after their own extension dispatch);
`validate_file_path` itself, were it invoked, would raise. -/
theorem C4_nonexistent_path_behavior (fs : FileSystem) (p : FPath)
    (h : pathExists fs p = false) :
    validate_file_path fs p = .error (.validation "File does not exist.") ∧
    isValidationErr (DemandLoader.construct fs p) = false ∧
    isValidationErr (CapacityLoader.construct fs p) = false ∧
    isValidationErr (TranstimeLoader.construct fs p) = false ∧
    isValidationErr (DowntimeLoader.construct fs p) = false ∧
    DemandLoader.construct fs p = .error (.notFound p.name) ∧
    CapacityLoader.construct fs p = .error (.notFound p.name) ∧
    (strLower p.suffix = ".csv" ∨ strLower p.suffix = ".xlsx" →
      TranstimeLoader.construct fs p = .error (.notFound p.name) ∧
      DowntimeLoader.construct fs p = .error (.notFound p.name)) := by
  have hnone : alookup fs.files p = none := by
    cases halook : alookup fs.files p with
    | none => rfl
    | some fd =>
      unfold pathExists at h
      rw [halook] at h
      simp at h
  exact ⟨validate_file_path_notFound h, (demand_construct_no_val_fmt fs p).1,
    (capacity_construct_no_val_fmt fs p).1, trans_construct_no_val fs p,
    downtime_construct_no_val fs p, demand_construct_notFound hnone,
    capacity_construct_notFound hnone,
    fun hext => ⟨trans_construct_notFound hnone hext,
      downtime_construct_notFound hnone hext⟩⟩

/-- Witness for the amended C4 at the concrete nonexistent demand path. -/
theorem C4_nonexistent_path_behavior_witness :
    validate_file_path emptyFS pDemandX = .error (.validation "File does not exist.") :=
  (C4_nonexistent_path_behavior emptyFS pDemandX (by decide)).1

/-- Counterexample to C5 as stated: the existing text file `input/demand.txt`
does not make DemandLoader or CapacityLoader raise ValidationError at the
FileInput level — the demand loader hands the path to the spreadsheet parser,
which fails with a parse-level error. -/
theorem C5_counterexample :
    pathExists txtFS pTxt = true ∧
    isValidationErr (DemandLoader.construct txtFS pTxt) = false ∧
    isValidationErr (CapacityLoader.construct txtFS pTxt) = false ∧
    DemandLoader.construct txtFS pTxt = .error (.parse "input/demand.txt") := by
  decide

/-- Claim C5 (amended): for every path whose lower-cased extension is neither
`.csv` nor `.xlsx`, DemandLoader and CapacityLoader raise no ValidationError —
they dispatch the path unconditionally to the spreadsheet parser — while
TranstimeLoader and DowntimeLoader raise FormatError from their internal
extension check. -/
theorem C5_unsupported_extension_behavior (fs : FileSystem) (p : FPath)
    (h1 : strLower p.suffix ≠ ".csv") (h2 : strLower p.suffix ≠ ".xlsx") :
    demandDispatch p = .excel ∧ capacityDispatch p = .excel ∧
    isValidationErr (DemandLoader.construct fs p) = false ∧
    isValidationErr (CapacityLoader.construct fs p) = false ∧
    TranstimeLoader.construct fs p =
      .error (.format "Unsupported file format. Please provide a CSV or Excel file.") ∧
    DowntimeLoader.construct fs p =
      .error (.format "Unsupported file format. Please provide a CSV or Excel file.") := by
  refine ⟨?_, ?_, (demand_construct_no_val_fmt fs p).1,
    (capacity_construct_no_val_fmt fs p).1,
    trans_construct_format h1 h2, downtime_construct_format h1 h2⟩
  · unfold demandDispatch
    rw [if_neg h1]
  · unfold capacityDispatch
    rw [if_neg h1]

/-- Witness for the amended C5 at the concrete `.txt` path. -/
theorem C5_unsupported_extension_behavior_witness :
    TranstimeLoader.construct txtFS pTxt =
      .error (.format "Unsupported file format. Please provide a CSV or Excel file.") :=
  (C5_unsupported_extension_behavior txtFS pTxt (by decide) (by decide)).2.2.2.2.1

/-- Claim C6: constructing `FileInput(file_path=p)` never invokes
`validate_file_path` and yields `file_path = p` unchanged; consequently no
loader constructor raises before the parse step on account of a nonexistent
path — with a nonexistent path, Demand/Capacity fail at `pd.read_*` with
FileNotFoundError, and Transtime/Downtime do so too once their extension
dispatch passes. -/
theorem C6_fileinput_inert_validation (fs : FileSystem) (p : FPath) :
    (FileInput.mk p).file_path = p ∧
    (pathExists fs p = false →
      isValidationErr (DemandLoader.construct fs p) = false ∧
      isValidationErr (CapacityLoader.construct fs p) = false ∧
      isValidationErr (TranstimeLoader.construct fs p) = false ∧
      isValidationErr (DowntimeLoader.construct fs p) = false ∧
      DemandLoader.construct fs p = .error (.notFound p.name) ∧
      CapacityLoader.construct fs p = .error (.notFound p.name) ∧
      (strLower p.suffix = ".csv" ∨ strLower p.suffix = ".xlsx" →
        TranstimeLoader.construct fs p = .error (.notFound p.name) ∧
        DowntimeLoader.construct fs p = .error (.notFound p.name))) := by
  refine ⟨rfl, fun h => ?_⟩
  have hnone : alookup fs.files p = none := by
    cases halook : alookup fs.files p with
    | none => rfl
    | some fd =>
      unfold pathExists at h
      rw [halook] at h
      simp at h
  exact ⟨(demand_construct_no_val_fmt fs p).1, (capacity_construct_no_val_fmt fs p).1,
    trans_construct_no_val fs p, downtime_construct_no_val fs p,
    demand_construct_notFound hnone, capacity_construct_notFound hnone,
    fun hext => ⟨trans_construct_notFound hnone hext,
      downtime_construct_notFound hnone hext⟩⟩

/-- Witness for C6 at the concrete nonexistent demand path. -/
theorem C6_fileinput_inert_validation_witness :
    DemandLoader.construct emptyFS pDemandX = .error (.notFound "input/demand.xlsx") :=
  ((C6_fileinput_inert_validation emptyFS pDemandX).2 (by decide)).2.2.2.2.1

/-- Claim C7: for every path whose lower-cased extension is in the accepted
set, the FormatError-raising else branch of the transition-time and downtime
loaders is unreachable: neither the dispatch nor the whole construction ever
produces a FormatError. -/
theorem C7_format_branch_unreachable (fs : FileSystem) (p : FPath)
    (hext : strLower p.suffix ∈ acceptedExtensions) :
    isFormatErr (transtimeDispatch p) = false ∧
    isFormatErr (downtimeDispatch p) = false ∧
    isFormatErr (TranstimeLoader.construct fs p) = false ∧
    isFormatErr (DowntimeLoader.construct fs p) = false := by
  have hext' : strLower p.suffix = ".csv" ∨ strLower p.suffix = ".xlsx" := by
    simpa [acceptedExtensions] using hext
  obtain ⟨fmt1, hd1⟩ := transtimeDispatch_ok_of_accepted hext'
  obtain ⟨fmt2, hd2⟩ := downtimeDispatch_ok_of_accepted hext'
  refine ⟨?_, ?_, trans_construct_no_fmt hext', downtime_construct_no_fmt hext'⟩
  · rw [hd1]
    rfl
  · rw [hd2]
    rfl

/-- Witness for C7 at the concrete `.xlsx` transition-time path. -/
theorem C7_format_branch_unreachable_witness :
    isFormatErr (TranstimeLoader.construct sampleTransFS pTransX) = false :=
  (C7_format_branch_unreachable sampleTransFS pTransX (by decide)).2.2.1

/-- Claim C8: when the required column `product_id` is absent, the demand
loader fails with a KeyError on the first row it processes, and no table is
produced. -/
theorem C8_missing_column_first_row (r : Row) (rest : List Row)
    (h : alookup r "product_id" = none) :
    load_demand_rows (r :: rest) = .error (.keyError "product_id") ∧
    ∀ T, load_demand_rows (r :: rest) ≠ .ok T := by
  have hstep : demandStep [] r = .error (.keyError "product_id") := by
    simp [demandStep, rowGet, h]
  have hmain : load_demand_rows (r :: rest) = .error (.keyError "product_id") := by
    show foldE demandStep [] (r :: rest) = _
    unfold foldE
    rw [hstep]
  refine ⟨hmain, fun T hT => ?_⟩
  rw [hmain] at hT
  exact Except.noConfusion hT

/-- Witness for C8 at a concrete row lacking `product_id`. -/
theorem C8_missing_column_first_row_witness :
    load_demand_rows [rowNoProduct] = .error (.keyError "product_id") :=
  (C8_missing_column_first_row rowNoProduct [] (by decide)).1

/-- Claim C9: for every path whose lower-cased extension is not `.csv`, the
demand and capacity loaders do not reject the path: their dispatch selects the
spreadsheet parser unconditionally, and the construction never produces a
ValidationError or FormatError. -/
theorem C9_demand_capacity_no_rejection (fs : FileSystem) (p : FPath)
    (h : strLower p.suffix ≠ ".csv") :
    demandDispatch p = .excel ∧ capacityDispatch p = .excel ∧
    isValidationErr (DemandLoader.construct fs p) = false ∧
    isFormatErr (DemandLoader.construct fs p) = false ∧
    isValidationErr (CapacityLoader.construct fs p) = false ∧
    isFormatErr (CapacityLoader.construct fs p) = false := by
  refine ⟨?_, ?_, (demand_construct_no_val_fmt fs p).1,
    (demand_construct_no_val_fmt fs p).2, (capacity_construct_no_val_fmt fs p).1,
    (capacity_construct_no_val_fmt fs p).2⟩
  · unfold demandDispatch
    rw [if_neg h]
  · unfold capacityDispatch
    rw [if_neg h]

/-- Witness for C9 at the concrete `.txt` path. -/
theorem C9_demand_capacity_no_rejection_witness :
    demandDispatch pTxt = .excel :=
  (C9_demand_capacity_no_rejection txtFS pTxt (by decide)).1

/-- Claim C10: every successfully constructed loader table maps each outer key
to a non-empty inner structure (non-empty inner dict, or non-empty machine
set). -/
theorem C10_inner_structures_nonempty (fs : FileSystem) (p : FPath) :
    (∀ T, DemandLoader.construct fs p = .ok T → dictValuesNonempty T) ∧
    (∀ T, CapacityLoader.construct fs p = .ok T → dictValuesNonempty T) ∧
    (∀ T, TranstimeLoader.construct fs p = .ok T → dictValuesNonempty T) ∧
    (∀ T, DowntimeLoader.construct fs p = .ok T → setValuesNonempty T) := by
  refine ⟨fun T h => ?_, fun T h => ?_, fun T h => ?_, fun T h => ?_⟩
  · obtain ⟨rows, hrows⟩ := demand_construct_ok_rows h
    exact demand_fold_nonempty rows [] T dictValuesNonempty_nil hrows
  · obtain ⟨rows, hrows⟩ := capacity_construct_ok_rows h
    exact capacity_fold_nonempty rows [] T dictValuesNonempty_nil hrows
  · obtain ⟨rows, hrows⟩ := trans_construct_ok_rows h
    exact trans_fold_nonempty rows [] T dictValuesNonempty_nil hrows
  · obtain ⟨rows, hrows⟩ := downtime_construct_ok_rows h
    exact downtime_fold_nonempty rows [] T setValuesNonempty_nil hrows

/-- Witness for C10 on the sample demand and downtime loads. -/
theorem C10_inner_structures_nonempty_witness :
    dictValuesNonempty sampleDemandTable ∧ setValuesNonempty sampleDownTable :=
  ⟨(C10_inner_structures_nonempty sampleDemandFS pDemandX).1 sampleDemandTable (by decide),
   (C10_inner_structures_nonempty sampleDownFS pDownX).2.2.2 sampleDownTable (by decide)⟩

end DPSched
